import Mathlib

/-!
Verification of the text cryptographic operations core of the rcli tool
(`src/process/text.rs`, with the password-character pools of
`src/process/gen_pass.rs`).

The repository code wraps three external cryptographic crates (blake3,
ed25519-dalek, chacha20poly1305).  Those crates are not part of the
repository, so their primitives enter the development as explicit
parameters: a keyed-hash function `kh`, an `EdPrim` bundle for Ed25519 and
an `AeadPrim` bundle for the AEAD cipher.  Theorems that depend on a
documented contract of a crate (for example that AEAD decryption inverts
AEAD encryption under the same key and nonce) take that contract as a
hypothesis.  Everything the repository itself does — key loading and
length checks, nonce prefixing and splitting, signature comparison,
error propagation, UTF-8 gating, password-pool construction — is embedded
directly from the Rust source.

Randomness (the AEAD nonce, the Ed25519 seed, the password generator's
draws and shuffle) is passed in explicitly, so every definition is
executable.
-/

namespace RCli

/-- Byte strings are lists of naturals; each entry stands for one `u8`. -/
abbrev Bytes := List Nat

/-- The failure values produced by `src/process/text.rs`.  The Rust code
uses `anyhow` strings; each constructor names one distinct failure site:
`invalidData` is the `"Invalid data"` short-payload error of `decrypt`
(the spec's `InvalidCiphertext`), `decryptError` is the
`"Error decrypting data"` AEAD failure (the spec's `AuthenticationFailure`),
`invalidSignatureLength` is the `TryFromSliceError` raised by
`sig.try_into()?` in Ed25519 verify (the spec's `InvalidSignatureEncoding`),
and `invalidUtf8` is the `String::from_utf8` failure in
`process_text_decrypt`. -/
inductive TextError where
  | invalidData
  | decryptError
  | invalidSignatureLength
  | invalidUtf8
  deriving DecidableEq, Repr

/-- Outcome of a Rust expression that either produces a value or panics
(aborts the process).  Used to embed the slicing expression `&key[0..32]`,
which panics when the slice is shorter than 32 bytes instead of returning
an `Err`. -/
inductive RustOutcome (α : Type) where
  | ok (val : α)
  | panicked
  deriving DecidableEq, Repr

/-- Interface of the external `chacha20poly1305` crate: `enc key nonce
plain` is `cipher.encrypt(nonce, plain)` (ciphertext with appended tag,
`none` on failure), `dec key nonce ct` is `cipher.decrypt(nonce, ct)`
(`none` on authentication failure). -/
structure AeadPrim where
  enc : Bytes → Bytes → Bytes → Option Bytes
  dec : Bytes → Bytes → Bytes → Option Bytes

/-- Interface of the external `ed25519-dalek` crate: `derivePub seed` is
`SigningKey::from_bytes(seed).verifying_key().to_bytes()`, `edSign seed
msg` is `SigningKey::sign`, `edVerify pub msg sig` is
`VerifyingKey::verify(msg, sig).is_ok()`, and `validPoint bytes` says
whether `VerifyingKey::from_bytes` accepts the 32 bytes as a curve
point. -/
structure EdPrim where
  derivePub : Bytes → Bytes
  edSign : Bytes → Bytes → Bytes
  edVerify : Bytes → Bytes → Bytes → Bool
  validPoint : Bytes → Bool

/-- The `Blake3` signer struct: a 32-byte keyed-hash key. -/
structure Blake3 where
  key : Bytes
  deriving DecidableEq, Repr

/-- The `ChaCha20Poly1305` struct: a 32-byte cipher key. -/
structure ChaCha20Poly1305 where
  key : Bytes
  deriving DecidableEq, Repr

/-- The `Ed25519Signer` struct; `key` is the 32-byte seed stored in the
`SigningKey` (its `to_bytes` image). -/
structure Ed25519Signer where
  key : Bytes
  deriving DecidableEq, Repr

/-- The `Ed25519Verifier` struct; `key` is the 32-byte compressed public
point stored in the `VerifyingKey`. -/
structure Ed25519Verifier where
  key : Bytes
  deriving DecidableEq, Repr

/-- Embedding of `Blake3::try_new` (text.rs:191-197): `&key[0..32]`
panics when the input is shorter than 32 bytes; otherwise the first 32
bytes become the key and the function returns `Ok`. -/
def Blake3.tryNew (key : Bytes) : RustOutcome Blake3 :=
  if key.length < 32 then .panicked else .ok ⟨key.take 32⟩

/-- Embedding of `ChaCha20Poly1305::try_new` (text.rs:121-126): same
shape as `Blake3.tryNew`. -/
def ChaCha20Poly1305.tryNew (key : Bytes) : RustOutcome ChaCha20Poly1305 :=
  if key.length < 32 then .panicked else .ok ⟨key.take 32⟩

/-- Embedding of `Ed25519Signer::try_new` (text.rs:231-234):
`key.try_into()?` converts a slice to `&[u8; 32]` and fails unless the
length is exactly 32; `SigningKey::from_bytes` never fails. -/
def Ed25519Signer.tryNew (key : Bytes) : Option Ed25519Signer :=
  if key.length = 32 then some ⟨key⟩ else none

/-- Embedding of `Ed25519Verifier::try_new` (text.rs:242-245):
`key.try_into()?` demands exactly 32 bytes, then
`VerifyingKey::from_bytes` validates the point. -/
def Ed25519Verifier.tryNew (prim : EdPrim) (key : Bytes) : Option Ed25519Verifier :=
  if key.length = 32 then
    if prim.validPoint key then some ⟨key⟩ else none
  else none

/-- Embedding of `TextEncryptor for ChaCha20Poly1305` (text.rs:136-149):
encrypt the buffered input under a fresh 12-byte nonce (passed explicitly
here) and return `nonce ++ ciphertext_with_tag`. -/
def ChaCha20Poly1305.encrypt (prim : AeadPrim) (c : ChaCha20Poly1305)
    (nonce plain : Bytes) : Option Bytes :=
  (prim.enc c.key nonce plain).map (fun e => nonce ++ e)

/-- Embedding of `TextDecryptor for ChaCha20Poly1305` (text.rs:152-166):
reject payloads shorter than 12 bytes with `"Invalid data"`, otherwise
split off the 12-byte nonce and AEAD-decrypt the remainder, mapping an
AEAD failure to `"Error decrypting data"`. -/
def ChaCha20Poly1305.decrypt (prim : AeadPrim) (c : ChaCha20Poly1305)
    (buf : Bytes) : Except TextError Bytes :=
  if buf.length < 12 then .error .invalidData
  else
    match prim.dec c.key (buf.take 12) (buf.drop 12) with
    | some p => .ok p
    | none => .error .decryptError

/-- Embedding of `TextSign for Blake3` (text.rs:168-173): the signature is
the 32-byte keyed hash of the buffered input.  `kh` is the external
`blake3::keyed_hash`. -/
def Blake3.sign (kh : Bytes → Bytes → Bytes) (b : Blake3) (data : Bytes) : Bytes :=
  kh b.key data

/-- Embedding of `TextVerify for Blake3` (text.rs:176-183): recompute the
keyed hash and compare it byte-for-byte with the supplied signature. -/
def Blake3.verify (kh : Bytes → Bytes → Bytes) (b : Blake3)
    (data sigBytes : Bytes) : Bool :=
  kh b.key data == sigBytes

/-- Embedding of `TextSign for Ed25519Signer` (text.rs:207-213). -/
def Ed25519Signer.sign (prim : EdPrim) (s : Ed25519Signer) (data : Bytes) : Bytes :=
  prim.edSign s.key data

/-- Embedding of `TextVerify for Ed25519Verifier` (text.rs:216-223):
`sig.try_into()?` fails unless the signature is exactly 64 bytes;
otherwise the result is the boolean `verify(..).is_ok()`. -/
def Ed25519Verifier.verify (prim : EdPrim) (v : Ed25519Verifier)
    (data sigBytes : Bytes) : Except TextError Bool :=
  if sigBytes.length = 64 then .ok (prim.edVerify v.key data sigBytes)
  else .error .invalidSignatureLength

/-- Embedding of `KeyGenerator for Ed25519Signer` (text.rs:248-256): draw
a fresh signing key (its seed is passed explicitly), derive the public
key, and return `[sk.to_bytes(), pk.to_bytes()]` in that order. -/
def Ed25519Signer.generate (prim : EdPrim) (seed : Bytes) : List Bytes :=
  [seed, prim.derivePub seed]

/-- The `UPPER` pool of gen_pass.rs:6 — uppercase letters without `O`. -/
def UPPER : Bytes := "ABCDEFGHIJKLMNPQRSTUVWXYZ".toList.map Char.toNat

/-- The `LOWERCASE` pool of gen_pass.rs:7 — lowercase letters without `l`. -/
def LOWERCASE : Bytes := "abcdefghijkmnopqrstuvwxyz".toList.map Char.toNat

/-- The `NUMBERS` pool of gen_pass.rs:8 — the digits `1`-`9`. -/
def NUMBERS : Bytes := "123456789".toList.map Char.toNat

/-- The `SYMBOLS` pool of gen_pass.rs:9 — nine punctuation characters. -/
def SYMBOLS : Bytes := "!@#$%^&*_".toList.map Char.toNat

/-- The combined `chars` pool built by `process_genpass` from the enabled
character classes (gen_pass.rs:20-40). -/
def genpassChars (hasUpper hasLower hasNum hasSym : Bool) : Bytes :=
  (if hasUpper then UPPER else []) ++ (if hasLower then LOWERCASE else []) ++
    (if hasNum then NUMBERS else []) ++ (if hasSym then SYMBOLS else [])

/-- One random draw from a pool: `slice.choose(rng)` / `chars[rng.gen_range
(0..chars.len())]` always yields an element at an in-range index, embedded
here as an arbitrary natural reduced modulo the pool size. -/
def pickFrom (pool : Bytes) (r : Nat) : Nat :=
  pool.getD (r % pool.length) 0

/-- Embedding of `process_genpass` (gen_pass.rs:11-54) as the password it
constructs: one mandatory character per enabled class, then draws from
the combined pool up to `length`, then a shuffle.  The random draws are
`pick 0`, `pick 1`, … and the final `shuffle` permutation is a
parameter.  The Rust function prints the password; `Blake3::generate`
consumes its bytes as key material, which is what this definition
returns. -/
def process_genpass (pick : Nat → Nat) (shuffle : Bytes → Bytes)
    (length : Nat) (hasUpper hasLower hasNum hasSym : Bool) : Bytes :=
  let mandatory :=
    (if hasUpper then [pickFrom UPPER (pick 0)] else []) ++
      (if hasLower then [pickFrom LOWERCASE (pick 1)] else []) ++
      (if hasNum then [pickFrom NUMBERS (pick 2)] else []) ++
      (if hasSym then [pickFrom SYMBOLS (pick 3)] else [])
  let chars := genpassChars hasUpper hasLower hasNum hasSym
  let rest := (List.range (length - mandatory.length)).map
    (fun i => pickFrom chars (pick (4 + i)))
  shuffle (mandatory ++ rest)

/-- Embedding of `KeyGenerator for Blake3` (text.rs:199-204): the single
artifact is the byte content of `process_genpass(32, true, true, true,
true)`. -/
def Blake3.generate (pick : Nat → Nat) (shuffle : Bytes → Bytes) : List Bytes :=
  [process_genpass pick shuffle 32 true true true true]

/-- Whether `b` is a UTF-8 continuation byte (`0x80`-`0xBF`). -/
def isCont (b : Nat) : Bool := 0x80 ≤ b && b ≤ 0xBF

/-- UTF-8 validity of a byte string, as checked by Rust's
`String::from_utf8`: ASCII, two-byte sequences `C2`-`DF`, three-byte
sequences with the `E0`/`ED` surrogate restrictions, and four-byte
sequences with the `F0`/`F4` range restrictions. -/
def validUtf8 : Bytes → Bool
  | [] => true
  | b :: rest =>
    if b ≤ 0x7F then validUtf8 rest
    else if 0xC2 ≤ b && b ≤ 0xDF then
      match rest with
      | c1 :: r => isCont c1 && validUtf8 r
      | [] => false
    else if b = 0xE0 then
      match rest with
      | c1 :: c2 :: r => (0xA0 ≤ c1 && c1 ≤ 0xBF) && isCont c2 && validUtf8 r
      | _ => false
    else if (0xE1 ≤ b && b ≤ 0xEC) || b = 0xEE || b = 0xEF then
      match rest with
      | c1 :: c2 :: r => isCont c1 && isCont c2 && validUtf8 r
      | _ => false
    else if b = 0xED then
      match rest with
      | c1 :: c2 :: r => (0x80 ≤ c1 && c1 ≤ 0x9F) && isCont c2 && validUtf8 r
      | _ => false
    else if b = 0xF0 then
      match rest with
      | c1 :: c2 :: c3 :: r =>
        (0x90 ≤ c1 && c1 ≤ 0xBF) && isCont c2 && isCont c3 && validUtf8 r
      | _ => false
    else if 0xF1 ≤ b && b ≤ 0xF3 then
      match rest with
      | c1 :: c2 :: c3 :: r => isCont c1 && isCont c2 && isCont c3 && validUtf8 r
      | _ => false
    else if b = 0xF4 then
      match rest with
      | c1 :: c2 :: c3 :: r =>
        (0x80 ≤ c1 && c1 ≤ 0x8F) && isCont c2 && isCont c3 && validUtf8 r
      | _ => false
    else false

/-- Embedding of the façade `process_text_decrypt` (text.rs:105-113) after
base64 dearmoring: scheme-level decrypt, then `String::from_utf8`, whose
failure is a further error even though the plaintext bytes were
recovered. -/
def process_text_decrypt (prim : AeadPrim) (c : ChaCha20Poly1305)
    (encrypted : Bytes) : Except TextError Bytes :=
  match ChaCha20Poly1305.decrypt prim c encrypted with
  | .ok d => if validUtf8 d then .ok d else .error .invalidUtf8
  | .error e => .error e

/-- A concrete AEAD instance used to instantiate the crate interface in
witnesses: the tag is 16 zero bytes prepended to the plaintext, and
decryption checks it. -/
def primW : AeadPrim :=
  ⟨fun _ _ p => some (List.replicate 16 0 ++ p),
   fun _ _ ct =>
     if ct.take 16 = List.replicate 16 0 ∧ 16 ≤ ct.length then some (ct.drop 16)
     else none⟩

/-- A concrete Ed25519 instance for witnesses. -/
def edPrimW : EdPrim :=
  ⟨fun s => s, fun _ d => d, fun _ _ _ => true, fun _ => true⟩

/-- A concrete cipher struct for witnesses. -/
def cW : ChaCha20Poly1305 := ⟨List.replicate 32 0⟩

/-- A concrete verifier struct for witnesses. -/
def vW : Ed25519Verifier := ⟨List.replicate 32 0⟩

theorem primW_rt : ∀ k n p ct, primW.enc k n p = some ct → primW.dec k n ct = some p := by
  intro k n p ct h
  simp only [primW, Option.some_inj] at h
  subst h
  simp only [primW]
  rw [if_pos]
  · rw [List.drop_left' (by simp)]
  · exact ⟨List.take_left' (by simp), by simp⟩

theorem primW_short : ∀ k n ct, ct.length < 16 → primW.dec k n ct = none := by
  intro k n ct h
  simp only [primW]
  rw [if_neg]
  intro hc
  omega

theorem pickFrom_mem (pool : Bytes) (r : Nat) (h : pool ≠ []) :
    pickFrom pool r ∈ pool := by
  unfold pickFrom
  have hl : r % pool.length < pool.length := Nat.mod_lt _ (List.length_pos.mpr h)
  rw [List.getD_eq_getElem pool 0 hl]
  exact List.getElem_mem hl

theorem decrypt_encrypt_aux (prim : AeadPrim) (c : ChaCha20Poly1305)
    (nonce plain payload : Bytes) (hn : nonce.length = 12)
    (hrt : ∀ k n p ct, prim.enc k n p = some ct → prim.dec k n ct = some p)
    (henc : ChaCha20Poly1305.encrypt prim c nonce plain = some payload) :
    ChaCha20Poly1305.decrypt prim c payload = .ok plain := by
  rcases he : prim.enc c.key nonce plain with _ | ct
  · simp [ChaCha20Poly1305.encrypt, he] at henc
  · have hp : payload = nonce ++ ct := by
      simp [ChaCha20Poly1305.encrypt, he] at henc
      exact henc.symm
    subst hp
    have hdec := hrt _ _ _ _ he
    unfold ChaCha20Poly1305.decrypt
    rw [if_neg (by rw [List.length_append, hn]; omega)]
    rw [List.take_left' hn, List.drop_left' hn, hdec]

/-- C1: for every cipher key, plaintext and 12-byte nonce, decrypting the
nonce-prefixed payload produced by encrypt under the same key recovers
exactly the plaintext, given that the AEAD crate decrypts what it
encrypts under the same key and nonce. -/
theorem chacha_roundtrip (prim : AeadPrim) (c : ChaCha20Poly1305)
    (nonce plain payload : Bytes) (hn : nonce.length = 12)
    (hrt : ∀ k n p ct, prim.enc k n p = some ct → prim.dec k n ct = some p)
    (henc : ChaCha20Poly1305.encrypt prim c nonce plain = some payload) :
    ChaCha20Poly1305.decrypt prim c payload = .ok plain :=
  decrypt_encrypt_aux prim c nonce plain payload hn hrt henc

theorem chacha_roundtrip_witness :
    (List.replicate 12 (0 : Nat)).length = 12 ∧
    ChaCha20Poly1305.encrypt primW cW (List.replicate 12 0) [1, 2, 3] =
      some (List.replicate 12 0 ++ (List.replicate 16 0 ++ [1, 2, 3])) ∧
    ChaCha20Poly1305.decrypt primW cW
      (List.replicate 12 0 ++ (List.replicate 16 0 ++ [1, 2, 3])) = .ok [1, 2, 3] :=
  ⟨by simp, rfl,
   chacha_roundtrip primW cW (List.replicate 12 0) [1, 2, 3] _ (by simp) primW_rt rfl⟩

/-- C2: keyed-hash verification of a signature produced by keyed-hash
signing with the same key and data always succeeds, for every keyed-hash
function, key and input. -/
theorem blake3_verify_sign (kh : Bytes → Bytes → Bytes) (b : Blake3) (data : Bytes) :
    Blake3.verify kh b data (Blake3.sign kh b data) = true := by
  simp [Blake3.verify, Blake3.sign]

/-- C3 evidence: a 31-byte key makes `Blake3::try_new` and
`ChaCha20Poly1305::try_new` panic at the slice `&key[0..32]` instead of
returning the typed `InvalidKeyLength` failure the spec requires, while a
40-byte key is accepted with exactly its first 32 bytes as key
material. -/
theorem tryNew_short_key_outcome :
    Blake3.tryNew (List.replicate 31 0) = .panicked ∧
    ChaCha20Poly1305.tryNew (List.replicate 31 0) = .panicked ∧
    Blake3.tryNew (List.replicate 40 1) = .ok ⟨List.replicate 32 1⟩ ∧
    ChaCha20Poly1305.tryNew (List.replicate 40 1) = .ok ⟨List.replicate 32 1⟩ := by
  decide

/-- C4 counterexample: the Ed25519 signing-key loader rejects a 33-byte
buffer outright (`key.try_into()?` demands exactly 32 bytes), while the
same buffer truncated to its first 32 bytes loads fine — so bytes beyond
the required length are not ignored by that loader. -/
theorem ed25519_tryNew_long_fails :
    Ed25519Signer.tryNew (List.replicate 33 0) = none ∧
    Ed25519Signer.tryNew ((List.replicate 33 0).take 32) =
      some ⟨List.replicate 32 0⟩ := by
  decide

/-- C4 amended: on buffers strictly longer than 32 bytes the Blake3 and
ChaCha20Poly1305 loaders yield the same key as loading only the first 32
bytes, but both Ed25519 loaders fail, because they demand exactly 32
bytes. -/
theorem loaders_long_key (key : Bytes) (h : 32 < key.length) :
    Blake3.tryNew key = Blake3.tryNew (key.take 32) ∧
    ChaCha20Poly1305.tryNew key = ChaCha20Poly1305.tryNew (key.take 32) ∧
    Ed25519Signer.tryNew key = none ∧
    ∀ prim : EdPrim, Ed25519Verifier.tryNew prim key = none := by
  have ht : (key.take 32).length = 32 := by
    rw [List.length_take]; omega
  refine ⟨?_, ?_, ?_, ?_⟩
  · unfold Blake3.tryNew
    rw [if_neg (by omega), if_neg (by omega)]
    simp [List.take_take]
  · unfold ChaCha20Poly1305.tryNew
    rw [if_neg (by omega), if_neg (by omega)]
    simp [List.take_take]
  · unfold Ed25519Signer.tryNew
    rw [if_neg (by omega)]
  · intro prim
    unfold Ed25519Verifier.tryNew
    rw [if_neg (by omega)]

theorem loaders_long_key_witness :
    32 < (List.replicate 33 (0 : Nat)).length ∧
    Blake3.tryNew (List.replicate 33 0) =
      Blake3.tryNew ((List.replicate 33 0).take 32) ∧
    ChaCha20Poly1305.tryNew (List.replicate 33 0) =
      ChaCha20Poly1305.tryNew ((List.replicate 33 0).take 32) ∧
    Ed25519Signer.tryNew (List.replicate 33 0) = none ∧
    Ed25519Verifier.tryNew edPrimW (List.replicate 33 0) = none := by
  have h := loaders_long_key (List.replicate 33 0) (by simp)
  exact ⟨by simp, h.1, h.2.1, h.2.2.1, h.2.2.2 edPrimW⟩

/-- C5: a payload shorter than 12 bytes is rejected with the
short-payload (`InvalidCiphertext`) error; for any payload of at least 12
bytes, decryption succeeds with plaintext `p` exactly when the AEAD crate
decrypts the part after the first 12 bytes under the first 12 bytes as
nonce. -/
theorem chacha_decrypt_split (prim : AeadPrim) (c : ChaCha20Poly1305)
    (payload : Bytes) :
    (payload.length < 12 →
      ChaCha20Poly1305.decrypt prim c payload = .error .invalidData) ∧
    (12 ≤ payload.length → ∀ p : Bytes,
      (ChaCha20Poly1305.decrypt prim c payload = .ok p ↔
        prim.dec c.key (payload.take 12) (payload.drop 12) = some p)) := by
  constructor
  · intro h
    unfold ChaCha20Poly1305.decrypt
    rw [if_pos h]
  · intro h p
    unfold ChaCha20Poly1305.decrypt
    rw [if_neg (by omega)]
    rcases hd : prim.dec c.key (payload.take 12) (payload.drop 12) with _ | q
    · simp
    · simp

theorem chacha_decrypt_split_witness :
    ((List.replicate 3 (0 : Nat)).length < 12 ∧
      ChaCha20Poly1305.decrypt primW cW (List.replicate 3 0) =
        .error .invalidData) ∧
    (12 ≤ (List.replicate 12 (0 : Nat)).length ∧
      (ChaCha20Poly1305.decrypt primW cW (List.replicate 12 0) = .ok [] ↔
        primW.dec cW.key ((List.replicate 12 (0 : Nat)).take 12)
          ((List.replicate 12 (0 : Nat)).drop 12) = some [])) :=
  ⟨⟨by simp, (chacha_decrypt_split primW cW (List.replicate 3 0)).1 (by simp)⟩,
   ⟨by simp, (chacha_decrypt_split primW cW (List.replicate 12 0)).2 (by simp) []⟩⟩

/-- C6: Ed25519 verification fails with the signature-length error
exactly when the supplied signature is not 64 bytes; on a 64-byte
signature it returns the boolean verdict of the crate's verify, never an
error. -/
theorem ed25519_verify_siglen (prim : EdPrim) (v : Ed25519Verifier)
    (data sigBytes : Bytes) :
    (sigBytes.length ≠ 64 →
      Ed25519Verifier.verify prim v data sigBytes = .error .invalidSignatureLength) ∧
    (sigBytes.length = 64 →
      Ed25519Verifier.verify prim v data sigBytes =
        .ok (prim.edVerify v.key data sigBytes)) := by
  constructor
  · intro h
    unfold Ed25519Verifier.verify
    rw [if_neg h]
  · intro h
    unfold Ed25519Verifier.verify
    rw [if_pos h]

theorem ed25519_verify_siglen_witness :
    Ed25519Verifier.verify edPrimW vW [] [0] = .error .invalidSignatureLength ∧
    Ed25519Verifier.verify edPrimW vW [] (List.replicate 64 0) = .ok true :=
  ⟨(ed25519_verify_siglen edPrimW vW [] [0]).1 (by simp),
   by
    have h := (ed25519_verify_siglen edPrimW vW [] (List.replicate 64 0)).2 (by simp)
    simpa [edPrimW] using h⟩

/-- C7: asymmetric key generation returns exactly the two artifacts
`[seed, public_key]` in that order, and the second artifact is the public
counterpart derived from the signing key that loads from the first
artifact. -/
theorem ed25519_generate_pair (prim : EdPrim) (seed : Bytes)
    (h : seed.length = 32) :
    Ed25519Signer.generate prim seed = [seed, prim.derivePub seed] ∧
    ∃ s : Ed25519Signer,
      Ed25519Signer.tryNew ((Ed25519Signer.generate prim seed).getD 0 []) = some s ∧
      (Ed25519Signer.generate prim seed).getD 1 [] = prim.derivePub s.key := by
  refine ⟨rfl, ⟨⟨seed⟩, ?_, rfl⟩⟩
  simp [Ed25519Signer.generate, Ed25519Signer.tryNew, h]

theorem ed25519_generate_pair_witness :
    (List.replicate 32 (0 : Nat)).length = 32 ∧
    (Ed25519Signer.generate edPrimW (List.replicate 32 0) =
        [List.replicate 32 0, edPrimW.derivePub (List.replicate 32 0)] ∧
      ∃ s : Ed25519Signer,
        Ed25519Signer.tryNew
            ((Ed25519Signer.generate edPrimW (List.replicate 32 0)).getD 0 []) =
          some s ∧
        (Ed25519Signer.generate edPrimW (List.replicate 32 0)).getD 1 [] =
          edPrimW.derivePub s.key) :=
  ⟨by simp, ed25519_generate_pair edPrimW (List.replicate 32 0) (by simp)⟩

/-- C8: given that the AEAD crate rejects any ciphertext shorter than its
16-byte tag, every payload of length 12 to 27 passes the nonce-length
check but fails decryption with the authentication error, and any payload
that decrypts successfully is at least 28 bytes long. -/
theorem chacha_decrypt_min_length (prim : AeadPrim)
    (hshort : ∀ k n ct, ct.length < 16 → prim.dec k n ct = none)
    (c : ChaCha20Poly1305) (payload : Bytes) :
    (12 ≤ payload.length → payload.length ≤ 27 →
      ChaCha20Poly1305.decrypt prim c payload = .error .decryptError) ∧
    (∀ p : Bytes,
      ChaCha20Poly1305.decrypt prim c payload = .ok p → 28 ≤ payload.length) := by
  constructor
  · intro h1 h2
    unfold ChaCha20Poly1305.decrypt
    rw [if_neg (by omega)]
    rw [hshort c.key _ _ (by rw [List.length_drop]; omega)]
  · intro p hp
    by_contra hlt
    push_neg at hlt
    unfold ChaCha20Poly1305.decrypt at hp
    by_cases h12 : payload.length < 12
    · rw [if_pos h12] at hp
      simp at hp
    · rw [if_neg h12] at hp
      rw [hshort c.key _ _ (by rw [List.length_drop]; omega)] at hp
      simp at hp

theorem chacha_decrypt_min_length_witness :
    12 ≤ (List.replicate 20 (0 : Nat)).length ∧
    (List.replicate 20 (0 : Nat)).length ≤ 27 ∧
    ChaCha20Poly1305.decrypt primW cW (List.replicate 20 0) =
      .error .decryptError :=
  ⟨by simp, by simp,
   (chacha_decrypt_min_length primW primW_short cW (List.replicate 20 0)).1
     (by simp) (by simp)⟩

/-- C9: when a payload was correctly encrypted from a plaintext that is
not valid UTF-8, the scheme-level decrypt recovers the exact plaintext
bytes, but the `process_text_decrypt` façade rejects it with the UTF-8
conversion error. -/
theorem facade_decrypt_utf8_gate (prim : AeadPrim) (c : ChaCha20Poly1305)
    (nonce plain payload : Bytes) (hn : nonce.length = 12)
    (hrt : ∀ k n p ct, prim.enc k n p = some ct → prim.dec k n ct = some p)
    (hu : validUtf8 plain = false)
    (henc : ChaCha20Poly1305.encrypt prim c nonce plain = some payload) :
    ChaCha20Poly1305.decrypt prim c payload = .ok plain ∧
    process_text_decrypt prim c payload = .error .invalidUtf8 := by
  have hd := decrypt_encrypt_aux prim c nonce plain payload hn hrt henc
  refine ⟨hd, ?_⟩
  unfold process_text_decrypt
  rw [hd]
  simp [hu]

theorem facade_decrypt_utf8_gate_witness :
    validUtf8 [255] = false ∧
    ChaCha20Poly1305.decrypt primW cW
      (List.replicate 12 0 ++ (List.replicate 16 0 ++ [255])) = .ok [255] ∧
    process_text_decrypt primW cW
      (List.replicate 12 0 ++ (List.replicate 16 0 ++ [255])) =
      .error .invalidUtf8 := by
  have h := facade_decrypt_utf8_gate primW cW (List.replicate 12 0) [255]
    (List.replicate 12 0 ++ (List.replicate 16 0 ++ [255]))
    (by simp) primW_rt (by decide) rfl
  exact ⟨by decide, h.1, h.2⟩

/-- C10 counterexample: the combined generation alphabet has 68 distinct
characters, not 72. -/
theorem genpass_alphabet_not_72 :
    (genpassChars true true true true).Nodup ∧
    (genpassChars true true true true).length = 68 ∧
    (genpassChars true true true true).length ≠ 72 := by
  decide

/-- C10 amended: keyed-hash key generation returns a single 32-byte
artifact every byte of which lies in the fixed 68-character printable
alphabet (uppercase without O, lowercase without l, digits 1-9, nine
symbols), for every sequence of random draws and every shuffle that
permutes its input. -/
theorem blake3_generate_alphabet (pick : Nat → Nat) (shuffle : Bytes → Bytes)
    (hs : ∀ l, List.Perm (shuffle l) l) :
    (Blake3.generate pick shuffle).length = 1 ∧
    ∀ kb, kb ∈ Blake3.generate pick shuffle →
      kb.length = 32 ∧ ∀ b ∈ kb, b ∈ genpassChars true true true true := by
  refine ⟨rfl, ?_⟩
  intro kb hkb
  rw [Blake3.generate, List.mem_singleton] at hkb
  subst hkb
  unfold process_genpass
  constructor
  · rw [(hs _).length_eq]
    simp [pickFrom]
  · intro b hb
    rw [(hs _).mem_iff, List.mem_append] at hb
    have hsub : ∀ x, (x ∈ UPPER ∨ x ∈ LOWERCASE ∨ x ∈ NUMBERS ∨ x ∈ SYMBOLS) →
        x ∈ genpassChars true true true true := by
      intro x hx
      simp only [genpassChars, if_pos, List.mem_append]
      tauto
    rcases hb with hb | hb
    · simp at hb
      rcases hb with h1 | h2 | h3 | h4
      · exact hsub _ (Or.inl (h1 ▸ pickFrom_mem UPPER _ (by decide)))
      · exact hsub _ (Or.inr (Or.inl (h2 ▸ pickFrom_mem LOWERCASE _ (by decide))))
      · exact hsub _ (Or.inr (Or.inr (Or.inl (h3 ▸ pickFrom_mem NUMBERS _ (by decide)))))
      · exact hsub _ (Or.inr (Or.inr (Or.inr (h4 ▸ pickFrom_mem SYMBOLS _ (by decide)))))
    · rw [List.mem_map] at hb
      obtain ⟨i, _, hi⟩ := hb
      exact hi ▸ pickFrom_mem _ _ (by decide)

theorem blake3_generate_alphabet_witness :
    (∀ l : Bytes, List.Perm ((fun l => l) l) l) ∧
    ((Blake3.generate (fun _ => 0) (fun l => l)).length = 1 ∧
      ∀ kb, kb ∈ Blake3.generate (fun _ => 0) (fun l => l) →
        kb.length = 32 ∧ ∀ b ∈ kb, b ∈ genpassChars true true true true) :=
  ⟨fun l => List.Perm.refl l,
   blake3_generate_alphabet (fun _ => 0) (fun l => l) (fun l => List.Perm.refl l)⟩

end RCli
